import Mathlib

/-!
# Verification of the `async-cell-lock` deadlock-detector library

Shallow embedding of the detector core (`src/primitives/`), the
`QueueRwLock` (`src/queue_rw_lock.rs`), the async and sync `Mutex` /
`RwLock` wrappers (`src/sync/`), and `AsyncOnceCell`
(`src/async_once_cell.rs`).

Tasks and locks are identified by natural numbers.  Lock id `0` is the
reserved "not awaiting" value (`src/utils.rs` allocates ids starting
at 1).  The task-local storages `LOCKS_HELD` (`locks_held.rs`) and
`TASK` (`task.rs`) are both installed by one scope entry
(`with_deadlock_check`), so a single `inScope` flag per task models
whether `try_with` on either storage succeeds.
-/

namespace AsyncCellLock

/-- `Error` enum of `src/error.rs` (telemetry side effects omitted). -/
inductive Err where
  | deadlockDetected
  | recursiveLock
  | notDeadlockCheckFuture
  | syncLockTimeout
deriving DecidableEq, Repr

/-- Outcome of one acquisition step: the fast path constructed a hold
guard (`ok`), an error was returned (`err`), or an await guard was
installed and the task suspended on the raw primitive (`waiting`). -/
inductive AcqOutcome where
  | ok
  | err (e : Err)
  | waiting
deriving DecidableEq, Repr

/-- Pointwise update of a function out of `Nat`. -/
def upd {α : Type} (f : Nat → α) (k : Nat) (v : α) : Nat → α :=
  fun x => if x = k then v else f x

/-- `Iterator::position` as used by `locks_held::remove_lock` and
`LockData::remove_task`: index of the first occurrence. -/
def posOf (l : List Nat) (x : Nat) : Option Nat :=
  match l with
  | [] => none
  | a :: rest => if a = x then some 0 else (posOf rest x).map (· + 1)

/-- `Vec::swap_remove i`: the last element is moved into slot `i` and
the vector shrinks by one. -/
def swapRemove (l : List Nat) (i : Nat) : List Nat :=
  (l.set i (l.getLast?.getD 0)).dropLast

/-- Remove the first occurrence of `x` by `position` + `swap_remove`;
no-op when `x` is absent (both `remove_lock` and `remove_task` treat
the not-found case as a no-op in release builds). -/
def removeFirstSwap (l : List Nat) (x : Nat) : List Nat :=
  match posOf l x with
  | some i => swapRemove l i
  | none => l

/-- Detector state: per-task scope flag, per-task `LOCKS_HELD` vector,
per-task `Task::await_lock_id` atomic, and per-lock
`LockData::locked_tasks` vector (task ids, one entry per outstanding
hold guard). -/
structure DetState where
  inScope : Nat → Bool
  heldLocks : Nat → List Nat
  awaitId : Nat → Nat
  holders : Nat → List Nat

/-- `locks_held::add_lock`: push the id onto the requesting task's
task-local vector; outside a scope `try_with` fails. -/
def addLockHeld (st : DetState) (t lid : Nat) : Except Err DetState :=
  if st.inScope t then
    .ok { st with heldLocks := upd st.heldLocks t (st.heldLocks t ++ [lid]) }
  else
    .error .notDeadlockCheckFuture

/-- `locks_held::remove_lock`: remove the first occurrence via
`swap_remove`; outside a scope `try_with` fails. -/
def removeLockHeld (st : DetState) (t lid : Nat) : Except Err DetState :=
  if st.inScope t then
    .ok { st with heldLocks := upd st.heldLocks t (removeFirstSwap (st.heldLocks t) lid) }
  else
    .error .notDeadlockCheckFuture

/-- `LockData::check_deadlock`: walk the holder vector; any holder
whose awaited id is non-zero and contained in the requester's held
list closes a cycle. -/
def lockDataCheckDeadlock (st : DetState) (lid : Nat) (held : List Nat) : Except Err Unit :=
  if (st.holders lid).any (fun h => decide (0 < st.awaitId h) && held.contains (st.awaitId h)) then
    .error .deadlockDetected
  else
    .ok ()

/-- `locks_held::check_deadlock`: recursion check on the task-local
held list first, then the holder-set cycle check. -/
def checkDeadlock (st : DetState) (t lid : Nat) : Except Err Unit :=
  if st.inScope t then
    if (st.heldLocks t).contains lid then
      .error .recursiveLock
    else
      lockDataCheckDeadlock st lid (st.heldLocks t)
  else
    .error .notDeadlockCheckFuture

/-- `LockData::add_task`: push the task onto the holder vector. -/
def addTask (st : DetState) (lid t : Nat) : DetState :=
  { st with holders := upd st.holders lid (st.holders lid ++ [t]) }

/-- `LockData::remove_task`: remove the first pointer-equal entry via
`swap_remove` (same `Arc<Task>` is cloned into every guard of the
task, so pointer equality is task-id equality here). -/
def removeTask (st : DetState) (lid t : Nat) : DetState :=
  { st with holders := upd st.holders lid (removeFirstSwap (st.holders lid) t) }

/-- `Task::set_await_lock_id`: CAS `await_lock_id` from 0 to the
lock's id; a non-zero current value reports `DeadlockDetected`. -/
def setAwaitLockId (st : DetState) (t lid : Nat) : Except Err DetState :=
  if st.awaitId t = 0 then
    .ok { st with awaitId := upd st.awaitId t lid }
  else
    .error .deadlockDetected

/-- `Task::clear_await_lock_id`: store 0. -/
def clearAwaitLockId (st : DetState) (t : Nat) : DetState :=
  { st with awaitId := upd st.awaitId t 0 }

/-- `LockAwaitGuard::new`: deadlock pre-check, then `task::current`,
then the CAS on `await_lock_id`. -/
def lockAwaitGuardNew (st : DetState) (t lid : Nat) : Except Err DetState :=
  match checkDeadlock st t lid with
  | .error e => .error e
  | .ok _ =>
    if st.inScope t then setAwaitLockId st t lid
    else .error .notDeadlockCheckFuture

/-- Dropping a `LockAwaitGuard` clears the task's awaited id. -/
def lockAwaitGuardDrop (st : DetState) (t : Nat) : DetState :=
  clearAwaitLockId st t

/-- `LockHeldGuard::new_imp`: record the id in the task-local held
list, then the task in the lock's holder vector.  When `add_lock`
fails (outside a scope) `add_task` is not reached. -/
def lockHeldGuardNewImp (st : DetState) (t lid : Nat) : Except Err DetState :=
  match addLockHeld st t lid with
  | .error e => .error e
  | .ok st1 => .ok (addTask st1 lid t)

/-- `LockHeldGuard::new_no_wait`: `task::current` then `new_imp`.  No
recursion or cycle check is made on this path. -/
def lockHeldGuardNewNoWait (st : DetState) (t lid : Nat) : Except Err DetState :=
  if st.inScope t then lockHeldGuardNewImp st t lid
  else .error .notDeadlockCheckFuture

/-- `LockHeldGuard::new(wait)`: `new_imp`, and the consumed await
guard is dropped on function exit (awaited id cleared either way). -/
def lockHeldGuardNew (st : DetState) (t lid : Nat) : Except Err DetState :=
  match lockHeldGuardNewImp st t lid with
  | .error e => .error e
  | .ok st1 => .ok (lockAwaitGuardDrop st1 t)

/-- `Drop for LockHeldGuard`: `remove_lock` (result ignored) then
`remove_task`. -/
def lockHeldGuardDrop (st : DetState) (t lid : Nat) : DetState :=
  let st1 := match removeLockHeld st t lid with
    | .ok s => s
    | .error _ => st
  removeTask st1 lid t

/-- Number of lock ids currently recorded in the task's held list
(`has_lock_held` tests this against emptiness). -/
def heldCount (st : DetState) (t : Nat) : Nat :=
  (st.heldLocks t).length

/-- Availability state of a raw reader/writer lock.  `try_read`
succeeds exactly when no writer owns the lock; `try_write` succeeds
exactly when no writer owns it and no readers are out. -/
structure RawRw where
  writer : Bool
  readers : Nat
deriving DecidableEq, Repr

/-- `QueueRwLock` (`src/queue_rw_lock.rs`): detector record, internal
queue `Mutex<()>` and inner `RwLock<T>` (value elided), plus its lock
id. -/
structure QState where
  det : DetState
  mutexHeld : Bool
  rw : RawRw
  lid : Nat

/-- `QueueRwLock::queue`: fast path when `mutex.try_lock` and
`rwlock.try_read` both succeed (`LockHeldGuard::new_no_wait`);
otherwise install an await guard and suspend on `mutex.lock()`.  On
any error the raw guards taken so far are dropped, so the raw state is
returned unchanged. -/
def queueOp (s : QState) (t : Nat) : AcqOutcome × QState :=
  if s.mutexHeld = false && s.rw.writer = false then
    match lockHeldGuardNewNoWait s.det t s.lid with
    | .ok d =>
      (.ok, { s with det := d, mutexHeld := true,
                     rw := { s.rw with readers := s.rw.readers + 1 } })
    | .error e => (.err e, s)
  else
    match lockAwaitGuardNew s.det t s.lid with
    | .ok d => (.waiting, { s with det := d })
    | .error e => (.err e, s)

/-- `QueueRwLock::read`: fast path when `rwlock.try_read` succeeds;
otherwise await guard then suspend on `rwlock.read()`. -/
def readOp (s : QState) (t : Nat) : AcqOutcome × QState :=
  if s.rw.writer = false then
    match lockHeldGuardNewNoWait s.det t s.lid with
    | .ok d =>
      (.ok, { s with det := d, rw := { s.rw with readers := s.rw.readers + 1 } })
    | .error e => (.err e, s)
  else
    match lockAwaitGuardNew s.det t s.lid with
    | .ok d => (.waiting, { s with det := d })
    | .error e => (.err e, s)

/-- `QueueRwLock::try_queue`: `mutex.try_lock().ok()?`, then
`rwlock.try_read().ok()?`, then `LockHeldGuard::new_no_wait(..).ok()?`. -/
def tryQueueOp (s : QState) (t : Nat) : Option QState :=
  if s.mutexHeld then none
  else if s.rw.writer then none
  else
    match lockHeldGuardNewNoWait s.det t s.lid with
    | .ok d =>
      some { s with det := d, mutexHeld := true,
                    rw := { s.rw with readers := s.rw.readers + 1 } }
    | .error _ => none

/-- `QueueRwLockQueueGuard::write`: drop the hold guard and the shared
read, then `try_write` fast path (mutex released after the write is
granted), else await guard then suspend on `rwlock.write()`.  Error
exits drop the raw guards still owned by the consumed `self`. -/
def queueGuardWriteOp (s : QState) (t : Nat) : AcqOutcome × QState :=
  let d1 := lockHeldGuardDrop s.det t s.lid
  let r1 := s.rw.readers - 1
  if s.rw.writer = false && r1 = 0 then
    match lockHeldGuardNewNoWait d1 t s.lid with
    | .ok d2 =>
      (.ok, { s with det := d2, mutexHeld := false, rw := ⟨true, 0⟩ })
    | .error e =>
      (.err e, { s with det := d1, mutexHeld := false, rw := ⟨false, 0⟩ })
  else
    match lockAwaitGuardNew d1 t s.lid with
    | .ok d2 =>
      (.waiting, { s with det := d2, rw := { s.rw with readers := r1 } })
    | .error e =>
      (.err e, { s with det := d1, mutexHeld := false,
                        rw := { s.rw with readers := r1 } })

/-- Async `RwLock` (`src/sync/async_rwlock.rs`). -/
structure RwState where
  det : DetState
  rw : RawRw
  lid : Nat

/-- Async `RwLock::read`: fast path on `try_read`, else await guard
then suspend on `rwlock.read()`. -/
def arwReadOp (s : RwState) (t : Nat) : AcqOutcome × RwState :=
  if s.rw.writer = false then
    match lockHeldGuardNewNoWait s.det t s.lid with
    | .ok d =>
      (.ok, { s with det := d, rw := { s.rw with readers := s.rw.readers + 1 } })
    | .error e => (.err e, s)
  else
    match lockAwaitGuardNew s.det t s.lid with
    | .ok d => (.waiting, { s with det := d })
    | .error e => (.err e, s)

/-- Async `RwLock::write`: fast path on `try_write`, else await guard
then suspend on `rwlock.write()`. -/
def arwWriteOp (s : RwState) (t : Nat) : AcqOutcome × RwState :=
  if s.rw.writer = false && s.rw.readers = 0 then
    match lockHeldGuardNewNoWait s.det t s.lid with
    | .ok d => (.ok, { s with det := d, rw := ⟨true, 0⟩ })
    | .error e => (.err e, s)
  else
    match lockAwaitGuardNew s.det t s.lid with
    | .ok d => (.waiting, { s with det := d })
    | .error e => (.err e, s)

/-- Drop of an async `RwLockReadGuard`: hold-guard bookkeeping drop
plus release of the shared read. -/
def arwReadGuardDrop (s : RwState) (t : Nat) : RwState :=
  { s with det := lockHeldGuardDrop s.det t s.lid,
           rw := { s.rw with readers := s.rw.readers - 1 } }

/-- Async / sync mutex availability state (`src/sync/async_mutex.rs`,
`src/sync/mutex.rs`). -/
structure MuState where
  det : DetState
  locked : Bool
  lid : Nat

/-- Async `Mutex::lock`: fast path on `try_lock`, else await guard
then suspend on `mutex.lock()`. -/
def amutexLockOp (s : MuState) (t : Nat) : AcqOutcome × MuState :=
  if s.locked = false then
    match lockHeldGuardNewNoWait s.det t s.lid with
    | .ok d => (.ok, { s with det := d, locked := true })
    | .error e => (.err e, s)
  else
    match lockAwaitGuardNew s.det t s.lid with
    | .ok d => (.waiting, { s with det := d })
    | .error e => (.err e, s)

/-- Bound passed to `try_lock_for` / `try_read_for` / `try_write_for`
by the sync-over-async primitives: `Duration::from_millis(50)`. -/
def syncLockWaitMillis : Nat := 50

/-- Sync `Mutex::lock` (`src/sync/mutex.rs`).  `isAsync` is the
result of `is_async()` (a tokio runtime handle is current);
`grantedInTime` is an oracle for whether the bounded wait
`try_lock_for(50ms)` obtained the lock before expiry.  Outside an
async context the blocking `mutex.lock()` is used, which (ignoring
the oracle) always eventually acquires. -/
def syncMutexLockOp (s : MuState) (t : Nat) (isAsync grantedInTime : Bool) :
    AcqOutcome × MuState :=
  if s.locked = false then
    match lockHeldGuardNewNoWait s.det t s.lid with
    | .ok d => (.ok, { s with det := d, locked := true })
    | .error e => (.err e, s)
  else
    match lockAwaitGuardNew s.det t s.lid with
    | .error e => (.err e, s)
    | .ok d1 =>
      if isAsync && !grantedInTime then
        (.err .syncLockTimeout, { s with det := lockAwaitGuardDrop d1 t })
      else
        match lockHeldGuardNewImp d1 t s.lid with
        | .ok d2 => (.ok, { s with det := lockAwaitGuardDrop d2 t, locked := true })
        | .error e =>
          (.err e, { s with det := lockAwaitGuardDrop d1 t, locked := true })

/-- Sync `RwLock` (`src/sync/rwlock.rs`), same availability model as
the async one. -/
def syncRwReadOp (s : RwState) (t : Nat) (isAsync grantedInTime : Bool) :
    AcqOutcome × RwState :=
  if s.rw.writer = false then
    match lockHeldGuardNewNoWait s.det t s.lid with
    | .ok d =>
      (.ok, { s with det := d, rw := { s.rw with readers := s.rw.readers + 1 } })
    | .error e => (.err e, s)
  else
    match lockAwaitGuardNew s.det t s.lid with
    | .error e => (.err e, s)
    | .ok d1 =>
      if isAsync && !grantedInTime then
        (.err .syncLockTimeout, { s with det := lockAwaitGuardDrop d1 t })
      else
        match lockHeldGuardNewImp d1 t s.lid with
        | .ok d2 =>
          (.ok, { s with det := lockAwaitGuardDrop d2 t,
                         rw := ⟨false, s.rw.readers + 1⟩ })
        | .error e =>
          (.err e, { s with det := lockAwaitGuardDrop d1 t,
                            rw := ⟨false, s.rw.readers + 1⟩ })

/-- Sync `RwLock::write`. -/
def syncRwWriteOp (s : RwState) (t : Nat) (isAsync grantedInTime : Bool) :
    AcqOutcome × RwState :=
  if s.rw.writer = false && s.rw.readers = 0 then
    match lockHeldGuardNewNoWait s.det t s.lid with
    | .ok d => (.ok, { s with det := d, rw := ⟨true, 0⟩ })
    | .error e => (.err e, s)
  else
    match lockAwaitGuardNew s.det t s.lid with
    | .error e => (.err e, s)
    | .ok d1 =>
      if isAsync && !grantedInTime then
        (.err .syncLockTimeout, { s with det := lockAwaitGuardDrop d1 t })
      else
        match lockHeldGuardNewImp d1 t s.lid with
        | .ok d2 => (.ok, { s with det := lockAwaitGuardDrop d2 t, rw := ⟨true, 0⟩ })
        | .error e =>
          (.err e, { s with det := lockAwaitGuardDrop d1 t, rw := ⟨true, 0⟩ })

/-- `OnceCell::set`: stores the value only when the slot is empty. -/
def cellSet {α : Type} (c : Option α) (v : α) : Option α × Bool :=
  match c with
  | some w => (some w, false)
  | none => (some v, true)

/-- `AsyncOnceCell::take` (`self.cell.take()`): return the previous
contents, leaving the slot empty. -/
def cellTake {α : Type} (c : Option α) : Option α × Option α :=
  (c, none)

/-- `AsyncOnceCell::swap`: `take` the old contents, then `set` the new
payload when one is supplied.  Result is `(returned value, new slot)`. -/
def cellSwap {α : Type} (c : Option α) (value : Option α) : Option α × Option α :=
  let taken := cellTake c
  match value with
  | some v => (taken.1, (cellSet taken.2 v).1)
  | none => (taken.1, taken.2)

/-- `AsyncOnceCell::get_or_init`, sequential semantics.  The
initialization future is modelled by its result `v`; the returned
`Bool` records whether it was awaited.  The double-checked fast path
and the (immediately dropped) init-mutex guard collapse in a
single-task run: a set slot is returned without awaiting `f`. -/
def getOrInit {α : Type} (c : Option α) (v : α) : α × Option α × Bool :=
  match c with
  | some w => (w, some w, false)
  | none => (v, some v, true)

/-- `AsyncOnceCell::get_or_try_init`, sequential semantics: a set slot
short-circuits; otherwise the initializer result `r` is stored via
`once_cell`'s `get_or_try_init`, whose `Err` leaves the slot unset. -/
def getOrTryInit {α ε : Type} (c : Option α) (r : Except ε α) :
    Except ε α × Option α × Bool :=
  match c with
  | some w => (.ok w, some w, false)
  | none =>
    match r with
    | .ok v => (.ok v, some v, true)
    | .error e => (.error e, none, true)

/-! ## Helper lemmas -/

/-- `position` on `l ++ [x]` always finds an index, and `swap_remove`
at that index restores `l` exactly: when the first occurrence of `x`
is inside `l`, the moved last element is again `x`, so the slot is
unchanged. -/
theorem swapRemove_posOf_concat (l : List Nat) (x : Nat) :
    ∃ i, posOf (l ++ [x]) x = some i ∧ swapRemove (l ++ [x]) i = l := by
  induction l with
  | nil =>
    refine ⟨0, by simp [posOf], ?_⟩
    simp [swapRemove]
  | cons a rest ih =>
    obtain ⟨i, hp, hs⟩ := ih
    by_cases hax : a = x
    · subst hax
      refine ⟨0, by simp [posOf], ?_⟩
      unfold swapRemove
      rw [show (a :: rest) ++ [a] = a :: (rest ++ [a]) from rfl] at *
      rw [show (a :: (rest ++ [a])) = (a :: rest) ++ [a] from rfl, List.getLast?_concat]
      simp only [Option.getD_some]
      rw [show ((a :: rest) ++ [a]).set 0 a = (a :: rest) ++ [a] from rfl]
      exact List.dropLast_concat
    · refine ⟨i + 1, ?_, ?_⟩
      · show posOf (a :: (rest ++ [x])) x = some (i + 1)
        simp [posOf, hax, hp]
      · unfold swapRemove at hs ⊢
        rw [show (a :: rest) ++ [x] = (a :: rest) ++ [x] from rfl, List.getLast?_concat]
        rw [List.getLast?_concat] at hs
        simp only [Option.getD_some] at hs ⊢
        rw [show ((a :: rest) ++ [x]).set (i + 1) x = a :: (rest ++ [x]).set i x from rfl]
        rw [List.dropLast_cons_of_ne_nil, hs]
        intro hnil
        have : ((rest ++ [x]).set i x).length = 0 := by rw [hnil]; rfl
        simp at this

/-- Round-trip of the first-occurrence `swap_remove` against a push. -/
theorem removeFirstSwap_concat (l : List Nat) (x : Nat) :
    removeFirstSwap (l ++ [x]) x = l := by
  obtain ⟨i, hp, hs⟩ := swapRemove_posOf_concat l x
  simp [removeFirstSwap, hp, hs]

/-- `swap_remove` never introduces a new element. -/
theorem mem_removeFirstSwap (l : List Nat) (x y : Nat)
    (h : y ∈ removeFirstSwap l x) : y ∈ l := by
  unfold removeFirstSwap at h
  cases hp : posOf l x with
  | none => rw [hp] at h; exact h
  | some i =>
    rw [hp] at h
    unfold swapRemove at h
    have h1 : y ∈ l.set i (l.getLast?.getD 0) := List.dropLast_subset _ h
    rcases List.mem_or_eq_of_mem_set h1 with h2 | h2
    · exact h2
    · subst h2
      cases l with
      | nil => simp at h1
      | cons a rest =>
        rw [List.getLast?_eq_getLast _ (List.cons_ne_nil a rest)]
        exact List.getLast_mem _

/-- Concrete in-scope detector state for witnesses: task 0 holds lock
2, task 1 holds lock 1 while awaiting lock 2, task 5 awaits lock 7. -/
def detA : DetState :=
  ⟨fun _ => true,
   fun t => if t = 0 then [2] else [],
   fun t => if t = 1 then 2 else if t = 5 then 7 else 0,
   fun l => if l = 1 then [1] else []⟩

/-! ## Claims -/

/-- C2.  With the requesting task in scope, the pre-acquisition check
returns `RecursiveLock` exactly when the requested lock's id is in the
task's held list (checked before the cycle walk); otherwise it returns
`DeadlockDetected` exactly when some current holder has a non-zero
awaited lock id contained in the requester's held list; otherwise it
returns `Ok`. -/
theorem checkDeadlock_characterization (st : DetState) (t lid : Nat)
    (hs : st.inScope t = true) :
    (checkDeadlock st t lid = .error .recursiveLock ↔ lid ∈ st.heldLocks t) ∧
    (checkDeadlock st t lid = .error .deadlockDetected ↔
      (lid ∉ st.heldLocks t ∧
        ∃ h ∈ st.holders lid, 0 < st.awaitId h ∧ st.awaitId h ∈ st.heldLocks t)) ∧
    (checkDeadlock st t lid = .ok () ↔
      (lid ∉ st.heldLocks t ∧
        ∀ h ∈ st.holders lid, ¬(0 < st.awaitId h ∧ st.awaitId h ∈ st.heldLocks t))) := by
  unfold checkDeadlock lockDataCheckDeadlock
  rw [hs]
  simp only [if_true]
  by_cases hm : lid ∈ st.heldLocks t
  · have hc1 : (st.heldLocks t).contains lid = true := by
      simp only [List.elem_eq_mem, decide_eq_true_eq]; exact hm
    simp [hc1, hm]
  · have hc0 : (st.heldLocks t).contains lid = false := by
      simp only [List.elem_eq_mem, decide_eq_false_iff_not]; exact hm
    simp only [hc0, Bool.false_eq_true, if_false]
    by_cases hany : (st.holders lid).any
        (fun h => decide (0 < st.awaitId h) && (st.heldLocks t).contains (st.awaitId h)) = true
    · have hex : ∃ h ∈ st.holders lid,
          0 < st.awaitId h ∧ st.awaitId h ∈ st.heldLocks t := by
        simpa only [List.any_eq_true, Bool.and_eq_true, decide_eq_true_eq,
          List.elem_eq_mem] using hany
      have hnall : ¬∀ h ∈ st.holders lid,
          ¬(0 < st.awaitId h ∧ st.awaitId h ∈ st.heldLocks t) := by
        intro hall
        obtain ⟨h, hh, hp⟩ := hex
        exact hall h hh hp
      rw [if_pos hany]
      simp [hm, hex, hnall]
    · have hall : ∀ h ∈ st.holders lid,
          ¬(0 < st.awaitId h ∧ st.awaitId h ∈ st.heldLocks t) := by
        intro h hh hp
        refine hany ?_
        simp only [List.any_eq_true, Bool.and_eq_true, decide_eq_true_eq,
          List.elem_eq_mem]
        exact ⟨h, hh, hp⟩
      have hnex : ¬∃ h ∈ st.holders lid,
          0 < st.awaitId h ∧ st.awaitId h ∈ st.heldLocks t := by
        intro ⟨h, hh, hp⟩
        exact hall h hh hp
      rw [if_neg hany]
      simp [hm, hnex]
      exact fun h hh hp hmem => hall h hh ⟨hp, hmem⟩

/-- C2 witness: in `detA`, task 0 requesting lock 1 trips the cycle
check (holder task 1 awaits lock 2, which task 0 holds). -/
theorem checkDeadlock_characterization_witness :
    checkDeadlock detA 0 1 = .error .deadlockDetected :=
  ((checkDeadlock_characterization detA 0 1 rfl).2.1).mpr (by decide)

/-- C4.  The wait-guard CAS: installation succeeds exactly when the
task's `await_lock_id` is 0, a non-zero value is refused with
`DeadlockDetected`, a successful installation (also through
`LockAwaitGuard::new`) leaves `await_lock_id` equal to the awaited
lock's id (invariant I4), and dropping the guard stores 0. -/
theorem awaitGuard_cas_invariant (st : DetState) (t lid : Nat) :
    ((setAwaitLockId st t lid).isOk = true ↔ st.awaitId t = 0) ∧
    (∀ st1, setAwaitLockId st t lid = .ok st1 → st1.awaitId t = lid) ∧
    (st.awaitId t ≠ 0 → setAwaitLockId st t lid = .error .deadlockDetected) ∧
    (∀ st1, (lockAwaitGuardDrop st1 t).awaitId t = 0) ∧
    (∀ st1, lockAwaitGuardNew st t lid = .ok st1 → st1.awaitId t = lid) := by
  refine ⟨?_, ?_, ?_, ?_, ?_⟩
  · unfold setAwaitLockId
    by_cases h : st.awaitId t = 0 <;> simp [h, Except.isOk, Except.toBool]
  · intro st1 h
    unfold setAwaitLockId at h
    by_cases h0 : st.awaitId t = 0
    · rw [if_pos h0] at h
      cases h
      simp [upd]
    · rw [if_neg h0] at h
      cases h
  · intro h
    unfold setAwaitLockId
    rw [if_neg h]
  · intro st1
    simp [lockAwaitGuardDrop, clearAwaitLockId, upd]
  · intro st1 h
    unfold lockAwaitGuardNew at h
    cases hc : checkDeadlock st t lid with
    | error e => rw [hc] at h; cases h
    | ok u =>
      rw [hc] at h
      by_cases hsc : st.inScope t = true
      · rw [if_pos hsc] at h
        unfold setAwaitLockId at h
        by_cases h0 : st.awaitId t = 0
        · rw [if_pos h0] at h; cases h; simp [upd]
        · rw [if_neg h0] at h; cases h
      · rw [if_neg hsc] at h; cases h

/-- C4 witness: task 5 of `detA` already awaits lock 7, so a second
wait-guard installation is refused with `DeadlockDetected`. -/
theorem awaitGuard_cas_invariant_witness :
    setAwaitLockId detA 5 9 = .error .deadlockDetected :=
  (awaitGuard_cas_invariant detA 5 9).2.2.1 (by decide)

/-- C5.  For a task in scope, constructing a hold guard appends
exactly one occurrence of the lock's id to the task's held list and
one reference to the task to the lock's holder set, and dropping the
guard restores both lists to their prior contents (round-trip law). -/
theorem heldGuard_roundTrip (st : DetState) (t lid : Nat)
    (hs : st.inScope t = true) :
    ((lockHeldGuardNewImp st t lid).map fun s1 => s1.heldLocks t) =
      .ok (st.heldLocks t ++ [lid]) ∧
    ((lockHeldGuardNewImp st t lid).map fun s1 => s1.holders lid) =
      .ok (st.holders lid ++ [t]) ∧
    ((lockHeldGuardNewImp st t lid).map fun s1 =>
        (lockHeldGuardDrop s1 t lid).heldLocks t) = .ok (st.heldLocks t) ∧
    ((lockHeldGuardNewImp st t lid).map fun s1 =>
        (lockHeldGuardDrop s1 t lid).holders lid) = .ok (st.holders lid) := by
  unfold lockHeldGuardNewImp addLockHeld addTask lockHeldGuardDrop removeLockHeld removeTask
  simp [hs, upd, Except.map, removeFirstSwap_concat]

/-- C5 witness: concrete round trip of a hold guard for task 0 and
lock 3 in `detA`. -/
theorem heldGuard_roundTrip_witness :
    ((lockHeldGuardNewImp detA 0 3).map fun s1 => s1.heldLocks 0) =
      .ok (detA.heldLocks 0 ++ [3]) ∧
    ((lockHeldGuardNewImp detA 0 3).map fun s1 => s1.holders 3) =
      .ok (detA.holders 3 ++ [0]) ∧
    ((lockHeldGuardNewImp detA 0 3).map fun s1 =>
        (lockHeldGuardDrop s1 0 3).heldLocks 0) = .ok (detA.heldLocks 0) ∧
    ((lockHeldGuardNewImp detA 0 3).map fun s1 =>
        (lockHeldGuardDrop s1 0 3).holders 3) = .ok (detA.holders 3) :=
  heldGuard_roundTrip detA 0 3 rfl

/-- C3.  Inside a scope, `try_queue` yields nothing exactly when the
internal queue mutex is held or a writer owns the inner RW lock, and
yields a ticket whenever the mutex is immediately free and a shared
read is immediately obtainable. -/
theorem tryQueue_none_iff (s : QState) (t : Nat) (hs : s.det.inScope t = true) :
    (tryQueueOp s t = none ↔ (s.mutexHeld = true ∨ s.rw.writer = true)) ∧
    (s.mutexHeld = false → s.rw.writer = false → (tryQueueOp s t).isSome = true) := by
  unfold tryQueueOp lockHeldGuardNewNoWait lockHeldGuardNewImp addLockHeld
  constructor
  · by_cases hm : s.mutexHeld <;> by_cases hw : s.rw.writer <;> simp [hm, hw, hs]
  · intro hm hw
    simp [hm, hw, hs]

/-- C3 witness: in an idle concrete lock the queue ticket is
obtainable, and with the queue mutex held it is not. -/
theorem tryQueue_none_iff_witness :
    (tryQueueOp ⟨detA, false, ⟨false, 0⟩, 3⟩ 0).isSome = true ∧
    tryQueueOp ⟨detA, true, ⟨false, 0⟩, 3⟩ 0 = none :=
  ⟨(tryQueue_none_iff ⟨detA, false, ⟨false, 0⟩, 3⟩ 0 rfl).2 rfl rfl,
   ((tryQueue_none_iff ⟨detA, true, ⟨false, 0⟩, 3⟩ 0 rfl).1).mpr (Or.inl rfl)⟩

/-- C7.  For a task in scope holding nothing, with no writer on an
async `RwLock`: a first and a second `read()` both succeed, a
`write()` issued while the two read guards are live is refused with
`RecursiveLock`, and after both guards drop the task's held count is
0 again. -/
theorem multiRead_then_write_refused (s : RwState) (t : Nat)
    (hs : s.det.inScope t = true) (hw : s.rw.writer = false)
    (hh : s.det.heldLocks t = []) :
    (arwReadOp s t).1 = .ok ∧
    (arwReadOp (arwReadOp s t).2 t).1 = .ok ∧
    (arwWriteOp (arwReadOp (arwReadOp s t).2 t).2 t).1 = .err .recursiveLock ∧
    heldCount
      (arwReadGuardDrop
        (arwReadGuardDrop (arwReadOp (arwReadOp s t).2 t).2 t) t).det t = 0 := by
  unfold arwReadOp arwWriteOp arwReadGuardDrop heldCount
  unfold lockHeldGuardNewNoWait lockHeldGuardNewImp addLockHeld addTask
  unfold lockAwaitGuardNew checkDeadlock lockDataCheckDeadlock
  unfold lockHeldGuardDrop removeLockHeld removeTask
  simp [hs, hw, hh, upd, posOf, swapRemove, removeFirstSwap]

/-- C7 witness: the scenario run on a concrete idle lock. -/
theorem multiRead_then_write_refused_witness :
    (arwReadOp ⟨detA, ⟨false, 0⟩, 3⟩ 1).1 = .ok ∧
    (arwReadOp (arwReadOp ⟨detA, ⟨false, 0⟩, 3⟩ 1).2 1).1 = .ok ∧
    (arwWriteOp (arwReadOp (arwReadOp ⟨detA, ⟨false, 0⟩, 3⟩ 1).2 1).2 1).1 =
      .err .recursiveLock ∧
    heldCount
      (arwReadGuardDrop
        (arwReadGuardDrop
          (arwReadOp (arwReadOp ⟨detA, ⟨false, 0⟩, 3⟩ 1).2 1).2 1) 1).det 1 = 0 :=
  multiRead_then_write_refused ⟨detA, ⟨false, 0⟩, 3⟩ 1 rfl rfl rfl

/-- C9.  A set cell is returned by `get_or_init` / `get_or_try_init`
without awaiting the initializer; a failing `get_or_try_init`
initializer propagates its error and leaves the cell unset, so a
subsequent call with a succeeding initializer stores and returns its
value. -/
theorem onceCell_init_semantics (α ε : Type) (v w : α) (e : ε)
    (f : α) (r : Except ε α) :
    getOrInit (some v) f = (v, some v, false) ∧
    getOrTryInit (some v) r = (.ok v, some v, false) ∧
    getOrTryInit (none : Option α) (.error e : Except ε α) = (.error e, none, true) ∧
    getOrTryInit (getOrTryInit (none : Option α) (.error e : Except ε α)).2.1
      (.ok w : Except ε α) = (.ok w, some w, true) := by
  cases r <;> simp [getOrInit, getOrTryInit]

/-- C10.  `swap v` returns the previous contents and leaves the cell
holding `v`'s payload (`get` returns it, `none` when `v` is `none`);
`take` returns the previous contents and empties the cell; hence
`swap a` followed by `swap b` returns `a`. -/
theorem onceCell_swap_take (α : Type) (c v a b : Option α) :
    (cellSwap c v).1 = c ∧
    (cellSwap c v).2 = v ∧
    (cellTake c).1 = c ∧
    (cellTake c).2 = none ∧
    (cellSwap (cellSwap c a).2 b).1 = a := by
  cases v <;> cases a <;> cases b <;> simp [cellSwap, cellTake, cellSet]

/-- C6.  Outside a `with_deadlock_check` scope every guarded lock
operation returns `NotDeadlockCheckFuture`; the plain acquisition
entry points leave the whole state untouched, and the queue-guard
`write` transition adds no held id, sets no awaited id and adds no
holder (its only effect is the teardown of the consumed guard). -/
theorem outsideScope_all_ops (det : DetState) (t lid : Nat)
    (h : det.inScope t = false) :
    (∀ mh w r, queueOp ⟨det, mh, ⟨w, r⟩, lid⟩ t =
      (.err .notDeadlockCheckFuture, ⟨det, mh, ⟨w, r⟩, lid⟩)) ∧
    (∀ mh w r, readOp ⟨det, mh, ⟨w, r⟩, lid⟩ t =
      (.err .notDeadlockCheckFuture, ⟨det, mh, ⟨w, r⟩, lid⟩)) ∧
    (∀ l, amutexLockOp ⟨det, l, lid⟩ t =
      (.err .notDeadlockCheckFuture, ⟨det, l, lid⟩)) ∧
    (∀ l ia g, syncMutexLockOp ⟨det, l, lid⟩ t ia g =
      (.err .notDeadlockCheckFuture, ⟨det, l, lid⟩)) ∧
    (∀ w r, arwReadOp ⟨det, ⟨w, r⟩, lid⟩ t =
      (.err .notDeadlockCheckFuture, ⟨det, ⟨w, r⟩, lid⟩)) ∧
    (∀ w r, arwWriteOp ⟨det, ⟨w, r⟩, lid⟩ t =
      (.err .notDeadlockCheckFuture, ⟨det, ⟨w, r⟩, lid⟩)) ∧
    (∀ w r ia g, syncRwReadOp ⟨det, ⟨w, r⟩, lid⟩ t ia g =
      (.err .notDeadlockCheckFuture, ⟨det, ⟨w, r⟩, lid⟩)) ∧
    (∀ w r ia g, syncRwWriteOp ⟨det, ⟨w, r⟩, lid⟩ t ia g =
      (.err .notDeadlockCheckFuture, ⟨det, ⟨w, r⟩, lid⟩)) ∧
    (∀ mh w r,
      (queueGuardWriteOp ⟨det, mh, ⟨w, r⟩, lid⟩ t).1 = .err .notDeadlockCheckFuture ∧
      (∀ t2, (queueGuardWriteOp ⟨det, mh, ⟨w, r⟩, lid⟩ t).2.det.heldLocks t2 =
        det.heldLocks t2) ∧
      (∀ t2, (queueGuardWriteOp ⟨det, mh, ⟨w, r⟩, lid⟩ t).2.det.awaitId t2 =
        det.awaitId t2) ∧
      (∀ l2 t2, t2 ∈ (queueGuardWriteOp ⟨det, mh, ⟨w, r⟩, lid⟩ t).2.det.holders l2 →
        t2 ∈ det.holders l2)) := by
  have hdrop : lockHeldGuardDrop det t lid =
      { det with holders := upd det.holders lid (removeFirstSwap (det.holders lid) t) } := by
    unfold lockHeldGuardDrop removeLockHeld removeTask
    simp [h]
  refine ⟨?_, ?_, ?_, ?_, ?_, ?_, ?_, ?_, ?_⟩
  · intro mh w r
    unfold queueOp lockHeldGuardNewNoWait lockAwaitGuardNew checkDeadlock
    split <;> simp [h]
  · intro mh w r
    unfold readOp lockHeldGuardNewNoWait lockAwaitGuardNew checkDeadlock
    split <;> simp [h]
  · intro l
    unfold amutexLockOp lockHeldGuardNewNoWait lockAwaitGuardNew checkDeadlock
    split <;> simp [h]
  · intro l ia g
    unfold syncMutexLockOp lockHeldGuardNewNoWait lockAwaitGuardNew checkDeadlock
    split <;> simp [h]
  · intro w r
    unfold arwReadOp lockHeldGuardNewNoWait lockAwaitGuardNew checkDeadlock
    split <;> simp [h]
  · intro w r
    unfold arwWriteOp lockHeldGuardNewNoWait lockAwaitGuardNew checkDeadlock
    split <;> simp [h]
  · intro w r ia g
    unfold syncRwReadOp lockHeldGuardNewNoWait lockAwaitGuardNew checkDeadlock
    split <;> simp [h]
  · intro w r ia g
    unfold syncRwWriteOp lockHeldGuardNewNoWait lockAwaitGuardNew checkDeadlock
    split <;> simp [h]
  · intro mh w r
    unfold queueGuardWriteOp
    simp only [hdrop]
    unfold lockHeldGuardNewNoWait lockAwaitGuardNew checkDeadlock
    refine ⟨?_, ?_, ?_, ?_⟩
    · split <;> simp [h]
    · intro t2
      split <;> simp [h]
    · intro t2
      split <;> simp [h]
    · intro l2 t2
      split <;> simp [h, upd] <;>
        · by_cases hl : l2 = lid
          · simp [hl]
            exact mem_removeFirstSwap _ _ _
          · simp [hl]

/-- Detector state of a task that never entered a scope. -/
def detOut : DetState := ⟨fun _ => false, fun _ => [], fun _ => 0, fun _ => []⟩

/-- C6 witness: a concrete out-of-scope `queue()` call fails with
`NotDeadlockCheckFuture` and changes nothing. -/
theorem outsideScope_all_ops_witness :
    queueOp ⟨detOut, false, ⟨false, 0⟩, 1⟩ 0 =
      (.err .notDeadlockCheckFuture, ⟨detOut, false, ⟨false, 0⟩, 1⟩) :=
  (outsideScope_all_ops detOut 0 1 rfl).1 false false 0

/-- `LockAwaitGuard::new` can fail only in the pre-checks or the CAS,
never with `SyncLockTimeout`. -/
theorem lockAwaitGuardNew_ne_timeout (st : DetState) (t lid : Nat) :
    lockAwaitGuardNew st t lid ≠ .error .syncLockTimeout := by
  intro h
  unfold lockAwaitGuardNew at h
  cases hc : checkDeadlock st t lid with
  | error e =>
    rw [hc] at h
    injection h with h2
    subst h2
    revert hc
    unfold checkDeadlock lockDataCheckDeadlock
    split_ifs <;> simp
  | ok u =>
    rw [hc] at h
    unfold setAwaitLockId at h
    split_ifs at h <;> simp_all

/-- `LockHeldGuard::new_imp` can fail only with
`NotDeadlockCheckFuture` (the `add_lock` scope check). -/
theorem lockHeldGuardNewImp_err (st : DetState) (t lid : Nat) (e : Err)
    (h : lockHeldGuardNewImp st t lid = .error e) : e = .notDeadlockCheckFuture := by
  unfold lockHeldGuardNewImp addLockHeld at h
  split_ifs at h
  simp_all

/-- `LockHeldGuard::new_no_wait` can fail only with
`NotDeadlockCheckFuture`. -/
theorem lockHeldGuardNewNoWait_err (st : DetState) (t lid : Nat) (e : Err)
    (h : lockHeldGuardNewNoWait st t lid = .error e) : e = .notDeadlockCheckFuture := by
  unfold lockHeldGuardNewNoWait at h
  split_ifs at h
  · exact lockHeldGuardNewImp_err st t lid e h
  · simp_all

/-- C8.  Sync-over-async acquisitions: on a contended primitive, a
caller inside an async runtime context whose bounded wait expires gets
`SyncLockTimeout`; outside an async context the blocking wait is used,
the bounded-wait oracle is irrelevant and `SyncLockTimeout` is never
returned; the bound passed to the timed wait is 50 ms. -/
theorem syncLock_timeout_behavior (det : DetState) (t lid : Nat)
    (hs : det.inScope t = true) (ha : det.awaitId t = 0)
    (hh : det.heldLocks t = []) (hold : det.holders lid = []) :
    ((syncMutexLockOp ⟨det, true, lid⟩ t true false).1 = .err .syncLockTimeout) ∧
    ((syncRwReadOp ⟨det, ⟨true, 0⟩, lid⟩ t true false).1 = .err .syncLockTimeout) ∧
    (∀ r, (syncRwWriteOp ⟨det, ⟨true, r⟩, lid⟩ t true false).1 = .err .syncLockTimeout) ∧
    (∀ r, (syncRwWriteOp ⟨det, ⟨false, r + 1⟩, lid⟩ t true false).1 =
      .err .syncLockTimeout) ∧
    (∀ g, (syncMutexLockOp ⟨det, true, lid⟩ t false g).1 = .ok) ∧
    (∀ g, (syncRwReadOp ⟨det, ⟨true, 0⟩, lid⟩ t false g).1 = .ok) ∧
    (∀ (d2 : DetState) (l : Bool) (g : Bool),
      (syncMutexLockOp ⟨d2, l, lid⟩ t false g).1 ≠ .err .syncLockTimeout) ∧
    (∀ (d2 : DetState) (w : Bool) (r : Nat) (g : Bool),
      (syncRwReadOp ⟨d2, ⟨w, r⟩, lid⟩ t false g).1 ≠ .err .syncLockTimeout) ∧
    (∀ (d2 : DetState) (w : Bool) (r : Nat) (g : Bool),
      (syncRwWriteOp ⟨d2, ⟨w, r⟩, lid⟩ t false g).1 ≠ .err .syncLockTimeout) ∧
    syncLockWaitMillis = 50 := by
  have hchk : checkDeadlock det t lid = .ok () := by
    unfold checkDeadlock lockDataCheckDeadlock
    simp [hs, hh, hold]
  have hawait : lockAwaitGuardNew det t lid =
      .ok { det with awaitId := upd det.awaitId t lid } := by
    unfold lockAwaitGuardNew setAwaitLockId
    simp [hchk, hs, ha]
  refine ⟨?_, ?_, ?_, ?_, ?_, ?_, ?_, ?_, ?_, rfl⟩
  · unfold syncMutexLockOp
    simp [hawait]
  · unfold syncRwReadOp
    simp [hawait]
  · intro r
    unfold syncRwWriteOp
    simp [hawait]
  · intro r
    unfold syncRwWriteOp
    simp [hawait]
  · intro g
    unfold syncMutexLockOp lockHeldGuardNewImp addLockHeld
    simp [hawait, hs]
  · intro g
    unfold syncRwReadOp lockHeldGuardNewImp addLockHeld
    simp [hawait, hs]
  · intro d2 l g hcon
    unfold syncMutexLockOp at hcon
    split at hcon
    · cases hn : lockHeldGuardNewNoWait d2 t lid <;> simp [hn] at hcon
      have := lockHeldGuardNewNoWait_err d2 t lid _ hn
      simp_all
    · cases ha2 : lockAwaitGuardNew d2 t lid with
      | error e =>
        simp [ha2] at hcon
        exact lockAwaitGuardNew_ne_timeout d2 t lid (hcon ▸ ha2)
      | ok d1 =>
        rw [ha2] at hcon
        simp only [Bool.false_and, Bool.false_eq_true, if_false] at hcon
        cases hi : lockHeldGuardNewImp d1 t lid <;> simp [hi] at hcon
        have := lockHeldGuardNewImp_err d1 t lid _ hi
        simp_all
  · intro d2 w r g hcon
    unfold syncRwReadOp at hcon
    split at hcon
    · cases hn : lockHeldGuardNewNoWait d2 t lid <;> simp [hn] at hcon
      have := lockHeldGuardNewNoWait_err d2 t lid _ hn
      simp_all
    · cases ha2 : lockAwaitGuardNew d2 t lid with
      | error e =>
        simp [ha2] at hcon
        exact lockAwaitGuardNew_ne_timeout d2 t lid (hcon ▸ ha2)
      | ok d1 =>
        rw [ha2] at hcon
        simp only [Bool.false_and, Bool.false_eq_true, if_false] at hcon
        cases hi : lockHeldGuardNewImp d1 t lid <;> simp [hi] at hcon
        have := lockHeldGuardNewImp_err d1 t lid _ hi
        simp_all
  · intro d2 w r g hcon
    unfold syncRwWriteOp at hcon
    split at hcon
    · cases hn : lockHeldGuardNewNoWait d2 t lid <;> simp [hn] at hcon
      have := lockHeldGuardNewNoWait_err d2 t lid _ hn
      simp_all
    · cases ha2 : lockAwaitGuardNew d2 t lid with
      | error e =>
        simp [ha2] at hcon
        exact lockAwaitGuardNew_ne_timeout d2 t lid (hcon ▸ ha2)
      | ok d1 =>
        rw [ha2] at hcon
        simp only [Bool.false_and, Bool.false_eq_true, if_false] at hcon
        cases hi : lockHeldGuardNewImp d1 t lid <;> simp [hi] at hcon
        have := lockHeldGuardNewImp_err d1 t lid _ hi
        simp_all

/-- C8 witness: the scenario run with task 3 of `detA` (idle, in
scope) on a concrete contended lock 4. -/
theorem syncLock_timeout_behavior_witness :
    (syncMutexLockOp ⟨detA, true, 4⟩ 3 true false).1 = .err .syncLockTimeout :=
  (syncLock_timeout_behavior detA 3 4 rfl rfl rfl rfl).1

/-- State for the C1 recursion half: in-scope task 0 already holds
lock 1 (one read guard out, one raw reader), and both raw primitives
are immediately available for another fast-path acquisition. -/
def cexHeldQ : QState :=
  ⟨⟨fun _ => true, fun t => if t = 0 then [1] else [], fun _ => 0,
    fun l => if l = 1 then [0] else []⟩, false, ⟨false, 1⟩, 1⟩

/-- State for the C1 cycle half: task 1 holds lock 1 and awaits lock
2; task 0 holds lock 2 and requests lock 1, whose raw read is
immediately available. -/
def cexCycleQ : QState :=
  ⟨⟨fun _ => true, fun t => if t = 0 then [2] else [],
    fun t => if t = 1 then 2 else 0,
    fun l => if l = 1 then [1] else []⟩, false, ⟨false, 1⟩, 1⟩

/-- C1 counterexample.  On the fast path the detector pre-checks are
skipped: task 0 of `cexHeldQ` already holds lock 1, yet `read` and
`queue` both succeed instead of returning `RecursiveLock`; in
`cexCycleQ` holder task 1 awaits lock 2, which requester task 0
holds, yet `read` succeeds instead of returning `DeadlockDetected`.
(The repository's own test expects exactly this: `lock.read().await`
succeeds while a queue guard is held.) -/
theorem fastPath_prechecks_cex :
    (cexHeldQ.lid ∈ cexHeldQ.det.heldLocks 0 ∧
      (readOp cexHeldQ 0).1 = .ok ∧
      (queueOp cexHeldQ 0).1 = .ok) ∧
    ((1 : Nat) ∈ cexCycleQ.det.holders cexCycleQ.lid ∧
      cexCycleQ.det.awaitId 1 = 2 ∧
      (2 : Nat) ∈ cexCycleQ.det.heldLocks 0 ∧
      (readOp cexCycleQ 0).1 = .ok) := by
  decide

/-- C1 amended.  On the fast path (the underlying primitive's `try_*`
succeeds immediately) the only detector pre-check performed before the
`HoldGuard` is constructed is the scope check: the operation returns
`Ok` in scope and `NotDeadlockCheckFuture` outside, regardless of the
requester's held list and of the holders' awaited ids; the
`RecursiveLock` / `DeadlockDetected` pre-checks run only on the slow
path. -/
theorem fastPath_only_scope_check (s : QState) (m : MuState) (r : RwState) (t : Nat) :
    (s.mutexHeld = false → s.rw.writer = false →
      (queueOp s t).1 =
        (if s.det.inScope t then .ok else .err .notDeadlockCheckFuture)) ∧
    (s.rw.writer = false →
      (readOp s t).1 =
        (if s.det.inScope t then .ok else .err .notDeadlockCheckFuture)) ∧
    (m.locked = false →
      (amutexLockOp m t).1 =
        (if m.det.inScope t then .ok else .err .notDeadlockCheckFuture)) ∧
    (∀ ia g, m.locked = false →
      (syncMutexLockOp m t ia g).1 =
        (if m.det.inScope t then .ok else .err .notDeadlockCheckFuture)) ∧
    (r.rw.writer = false →
      (arwReadOp r t).1 =
        (if r.det.inScope t then .ok else .err .notDeadlockCheckFuture)) ∧
    (r.rw.writer = false → r.rw.readers = 0 →
      (arwWriteOp r t).1 =
        (if r.det.inScope t then .ok else .err .notDeadlockCheckFuture)) ∧
    (∀ ia g, r.rw.writer = false →
      (syncRwReadOp r t ia g).1 =
        (if r.det.inScope t then .ok else .err .notDeadlockCheckFuture)) ∧
    (∀ ia g, r.rw.writer = false → r.rw.readers = 0 →
      (syncRwWriteOp r t ia g).1 =
        (if r.det.inScope t then .ok else .err .notDeadlockCheckFuture)) := by
  refine ⟨?_, ?_, ?_, ?_, ?_, ?_, ?_, ?_⟩
  · intro h1 h2
    unfold queueOp lockHeldGuardNewNoWait lockHeldGuardNewImp addLockHeld addTask
    by_cases hsc : s.det.inScope t <;> simp [h1, h2, hsc]
  · intro h2
    unfold readOp lockHeldGuardNewNoWait lockHeldGuardNewImp addLockHeld addTask
    by_cases hsc : s.det.inScope t <;> simp [h2, hsc]
  · intro h1
    unfold amutexLockOp lockHeldGuardNewNoWait lockHeldGuardNewImp addLockHeld addTask
    by_cases hsc : m.det.inScope t <;> simp [h1, hsc]
  · intro ia g h1
    unfold syncMutexLockOp lockHeldGuardNewNoWait lockHeldGuardNewImp addLockHeld addTask
    by_cases hsc : m.det.inScope t <;> simp [h1, hsc]
  · intro h2
    unfold arwReadOp lockHeldGuardNewNoWait lockHeldGuardNewImp addLockHeld addTask
    by_cases hsc : r.det.inScope t <;> simp [h2, hsc]
  · intro h2 h3
    unfold arwWriteOp lockHeldGuardNewNoWait lockHeldGuardNewImp addLockHeld addTask
    by_cases hsc : r.det.inScope t <;> simp [h2, h3, hsc]
  · intro ia g h2
    unfold syncRwReadOp lockHeldGuardNewNoWait lockHeldGuardNewImp addLockHeld addTask
    by_cases hsc : r.det.inScope t <;> simp [h2, hsc]
  · intro ia g h2 h3
    unfold syncRwWriteOp lockHeldGuardNewNoWait lockHeldGuardNewImp addLockHeld addTask
    by_cases hsc : r.det.inScope t <;> simp [h2, h3, hsc]

/-- C1 amended witness: fast-path `read` on `cexHeldQ` resolves to the
scope check's verdict alone. -/
theorem fastPath_only_scope_check_witness :
    (readOp cexHeldQ 0).1 =
      (if cexHeldQ.det.inScope 0 then .ok else .err .notDeadlockCheckFuture) :=
  (fastPath_only_scope_check cexHeldQ ⟨cexHeldQ.det, false, 1⟩
    ⟨cexHeldQ.det, ⟨false, 0⟩, 1⟩ 0).2.1 rfl

end AsyncCellLock
